import Mathlib

/-!
Verification of the cross-stream log-correlation engine of the ctviewer
repository (src/script.js, class CTLogViewer).

The engine is embedded shallowly:

* DOM-free data is carried over directly: log lines, per-panel buffers,
  the cross-panel second index, error-position lists.
* Network fetches are suspension points; a call that performs a fetch is
  modelled as a function taking the fetch outcome (an Except value) as an
  argument and returning the successor state together with the list of
  requests it issued, so that "no network call" is the statement that the
  request list is empty.
* The single DOM observation the spec talks about for failure handling,
  namely that the panel element's innerHTML is replaced by an inline
  failure message, is modelled by the boolean field inlineError; a
  successful renderLog rebuilds the element content and therefore clears
  that flag.
* JavaScript string truthiness on optional fields (secondKey, timestamp,
  search) is modelled by comparison with the empty string.
* Scroll geometry (script.js syncScrollPosition) uses rational numbers in
  place of IEEE doubles; the claims under study concern the shape of the
  formulas and the selection of panels, not rounding.

Line references below are to src/script.js. The file contains two
near-duplicate CTLogViewer implementations (lines 1-1429 and 1430-2548);
where they differ the difference is noted.
-/

namespace CTViewer

/-- Severity of a log line: script.js uses the strings normal, warning,
error in the level field of a line record. -/
inductive Level
  | normal
  | warning
  | error
deriving DecidableEq

/-- A structured log line as received from the backend (spec section 3,
consumed at script.js lines 255-271). Absent timestamp or secondKey is
the empty string, matching JavaScript falsiness of missing fields. -/
structure LogLine where
  id : Nat
  lineNumber : Nat
  timestamp : String
  secondKey : String
  level : Level
  content : String
  original : String
deriving DecidableEq

/-- The three fixed stream identifiers (script.js line 3-6: keys bt, out,
rs of this.logs). -/
inductive Panel
  | bt
  | out
  | rs
deriving DecidableEq

/-- Per-panel mutable state, script.js lines 4-6: the fields of each
this.logs entry that the claims are about, plus inlineError standing for
the panel element showing the loadLogData failure message (lines
275-279). searchResults is omitted: no claim mentions it. -/
structure PanelLog where
  visibleLines : List LogLine
  currentOffset : Nat
  totalLines : Nat
  loading : Bool
  inlineError : Bool
deriving DecidableEq

/-- Constructor state of one panel (script.js line 4). -/
def initPanelLog : PanelLog :=
  { visibleLines := [], currentOffset := 0, totalLines := 0,
    loading := false, inlineError := false }

/-- One entry of the per-panel error-position list (script.js lines
497-501). -/
structure ErrorPos where
  lineNumber : Nat
  level : Level
  offset : Nat
deriving DecidableEq

/-- A network request issued to GET /api/logs, as assembled from
URLSearchParams at script.js lines 242-250 (page loads) and 774-778
(targeted second loads). -/
structure FetchRequest where
  panel : Panel
  offset : Option Nat
  search : Option String
  second : Option String
  limit : Nat
deriving DecidableEq

/-- The second index, script.js line 21: a mapping secondKey → panel →
lines. Keys that were never inserted map to the empty list (sparse
representation). -/
def SecondIndex : Type := String → Panel → List LogLine

/-- Full engine state: the three panel states plus the process-wide
secondIndex (line 21), errorPositions (line 22) and stats (line 20,
only its per-panel totalLines field is consumed by the engine, at lines
266 and 356). A panel absent from stats reads as 0 via the JavaScript
expression this.stats[panel]?.totalLines || 0. -/
structure ViewerState where
  logs : Panel → PanelLog
  secondIndex : SecondIndex
  errorPositions : Panel → List ErrorPos
  stats : Panel → Nat

/-- State built by the constructor (script.js lines 2-22). -/
def initViewerState : ViewerState :=
  { logs := fun _ => initPanelLog,
    secondIndex := fun _ _ => [],
    errorPositions := fun _ => [],
    stats := fun _ => 0 }

/-- Page size, script.js line 17. -/
def linesPerPage : Nat := 100

/-- Pointwise update of the panel map. -/
def setPanel (logs : Panel → PanelLog) (p : Panel) (v : PanelLog) :
    Panel → PanelLog :=
  fun q => if q = p then v else logs q

/-- Pointwise update of the error-position map. -/
def setErrors (errs : Panel → List ErrorPos) (p : Panel)
    (v : List ErrorPos) : Panel → List ErrorPos :=
  fun q => if q = p then v else errs q

/-- Insertion of one line into the second index, the body of the forEach
at script.js lines 210-219 and 287-296: lines whose secondKey is falsy
are skipped, others are pushed onto the per-key per-panel list. -/
def indexLine (idx : SecondIndex) (p : Panel) (l : LogLine) : SecondIndex :=
  if l.secondKey = "" then idx
  else fun k q => if k = l.secondKey ∧ q = p then idx k q ++ [l] else idx k q

/-- Folding a batch of lines into the index in order, as the forEach
loops at script.js lines 210 and 287 do. -/
def indexNewLines (idx : SecondIndex) (p : Panel) (lines : List LogLine) :
    SecondIndex :=
  lines.foldl (fun i l => indexLine i p l) idx

/-- buildSecondIndex, script.js lines 204-222: reset the index and fold
in every panel's buffer, in the Object.keys order bt, out, rs. -/
def buildSecondIndex (logs : Panel → PanelLog) : SecondIndex :=
  indexNewLines
    (indexNewLines
      (indexNewLines (fun _ _ => []) Panel.bt (logs Panel.bt).visibleLines)
      Panel.out (logs Panel.out).visibleLines)
    Panel.rs (logs Panel.rs).visibleLines

/-- The severity test used by the error tracker, script.js lines 496 and
519: level is error or warning. -/
def isErrorOrWarning (l : LogLine) : Bool :=
  decide (l.level = Level.error ∨ l.level = Level.warning)

/-- Error entries contributed by a batch of lines, where the offset
recorded for the line at position i of the batch is base + i. This is
the forEach body shared by detectErrorsFromLoadedContent (script.js
lines 495-503, base = the panel's currentOffset, batch = the whole
buffer) and updateErrorPositionsFromNewContent (lines 518-526, base =
the panel's currentOffset, batch = only the newly fetched page). -/
def newErrorEntries (base : Nat) (batch : List LogLine) : List ErrorPos :=
  batch.enum.filterMap fun ie =>
    if isErrorOrWarning ie.2 then
      some { lineNumber := ie.2.lineNumber, level := ie.2.level,
             offset := base + ie.1 }
    else none

/-- updateErrorPositionsFromNewContent, script.js lines 512-531: append
the new batch's error entries to the existing list. -/
def updateErrorPositionsFromNewContent (errs : List ErrorPos) (base : Nat)
    (batch : List LogLine) : List ErrorPos :=
  errs ++ newErrorEntries base batch

/-- detectErrorsFromLoadedContent, script.js lines 482-510: if the buffer
is empty return leaving the list untouched, otherwise clear the panel's
list and rebuild it from the whole buffer. -/
def detectErrorsFromLoadedContent (log : PanelLog) (errs : List ErrorPos) :
    List ErrorPos :=
  if log.visibleLines = [] then errs
  else newErrorEntries log.currentOffset log.visibleLines

/-- updateSecondIndex, script.js lines 285-301: fold the new lines into
the index, then extend the error positions from the same lines (reading
the panel's currentOffset after the buffer mutation performed by the
caller). -/
def updateSecondIndexStep (s : ViewerState) (p : Panel)
    (newLines : List LogLine) : ViewerState :=
  { s with
    secondIndex := indexNewLines s.secondIndex p newLines,
    errorPositions := setErrors s.errorPositions p
      (updateErrorPositionsFromNewContent (s.errorPositions p)
        ((s.logs p).currentOffset) newLines) }

/-- The request assembled at script.js lines 242-250: offset and limit
always, search only when truthy. -/
def pageRequest (p : Panel) (offset : Nat) (search : String) : FetchRequest :=
  { panel := p, offset := some offset,
    search := if search = "" then none else some search,
    second := none, limit := linesPerPage }

/-- loadLogData, script.js lines 235-283 (identical at 1648-1696).
Returns the successor state and the list of requests issued.

* Guard (line 237): a panel with loading = true returns at once, issuing
  nothing and changing nothing.
* Success (lines 255-271): offset 0 replaces the buffer and resets
  currentOffset to 0, any other offset appends; totalLines is refreshed
  from stats; renderLog rebuilds the element (clearing any inline error);
  updateSecondIndex folds the fetched page into the index and the error
  positions.
* Failure (lines 273-279): the catch block replaces only the element
  content with an inline failure message; buffer, currentOffset,
  totalLines, index and error positions are untouched.
* The finally block (line 281) restores loading = false, its value at
  entry to the body, so the field is unchanged across the whole call. -/
def loadLogData (s : ViewerState) (p : Panel) (offset : Nat)
    (search : String) (result : Except Unit (List LogLine)) :
    ViewerState × List FetchRequest :=
  if (s.logs p).loading then (s, [])
  else
    match result with
    | Except.error _ =>
      let failLog := { s.logs p with inlineError := true }
      ({ s with logs := setPanel s.logs p failLog },
        [pageRequest p offset search])
    | Except.ok lines =>
      let log := s.logs p
      let log1 :=
        if offset = 0 then
          { log with visibleLines := lines, currentOffset := 0 }
        else
          { log with visibleLines := log.visibleLines ++ lines }
      let log2 := { log1 with totalLines := s.stats p, inlineError := false }
      let s1 := { s with logs := setPanel s.logs p log2 }
      (updateSecondIndexStep s1 p lines, [pageRequest p offset search])

/-- The targeted request of script.js lines 774-778: second key and a
limit of 50, no offset and no search. -/
def secondRequest (p : Panel) (key : String) : FetchRequest :=
  { panel := p, offset := none, search := none, second := some key,
    limit := 50 }

/-- loadSecondFromPanel, script.js lines 760-809 (identical at
1650-2216 in the second copy). Returns the successor state, the
requests issued, and the JavaScript return value: none models the bare
return of the already-loaded branch (undefined), some b the boolean
returned after a fetch.

* Already-loaded guard (lines 764-767): if some buffered line carries the
  requested key, return undefined at once, issuing nothing.
* Otherwise one request with limit 50 is issued. On success with a
  non-empty payload (lines 785-799) the lines are appended to the buffer,
  updateSecondIndex folds them into the index and error positions,
  renderLog rebuilds the element, and true is returned. On an empty
  payload, or on failure (lines 801-806, a transient auto-dismissed
  banner not modelled here), the state is unchanged and false is
  returned (line 808). currentOffset and totalLines are never touched. -/
def loadSecondFromPanel (s : ViewerState) (p : Panel) (key : String)
    (result : Except Unit (List LogLine)) :
    ViewerState × List FetchRequest × Option Bool :=
  if (s.logs p).visibleLines.any (fun l => l.secondKey == key) then
    (s, [], none)
  else
    match result with
    | Except.error _ => (s, [secondRequest p key], some false)
    | Except.ok lines =>
      if lines = [] then (s, [secondRequest p key], some false)
      else
        let log := s.logs p
        let log2 := { log with visibleLines := log.visibleLines ++ lines,
                               inlineError := false }
        let s1 := { s with logs := setPanel s.logs p log2 }
        (updateSecondIndexStep s1 p lines, [secondRequest p key], some true)

/-- A sequence of successful page loads on one panel, each call completing
before the next starts (the event loop runs loadLogData bodies to
completion between awaits, and a completed call has reset loading). -/
def runLoads (s : ViewerState) (p : Panel)
    (calls : List (Nat × List LogLine)) : ViewerState :=
  calls.foldl (fun t c => (loadLogData t p c.1 "" (Except.ok c.2)).1) s

/-- detectErrorsFromLoadedContent applied to one panel of the full state,
the forEach body of loadAllErrors (script.js lines 471-473). -/
def detectStep (s : ViewerState) (p : Panel) : ViewerState :=
  let errs := detectErrorsFromLoadedContent (s.logs p) (s.errorPositions p)
  { s with errorPositions := setErrors s.errorPositions p errs }

/-- One event-loop transition of the engine state: the operations of the
viewer that mutate the modelled fields. Page loads and targeted second
loads take an arbitrary fetch outcome; rebuildIndex is the
buildSecondIndex call of initializeViewer (line 182); detect is the
loadAllErrors pass (lines 465-480); newStats is loadStats writing
this.stats (line 229), which on failure leaves it unchanged (a special
case of an arbitrary new value). -/
inductive Step : ViewerState → ViewerState → Prop
  | loadData (s : ViewerState) (p : Panel) (offset : Nat) (search : String)
      (result : Except Unit (List LogLine)) :
      Step s (loadLogData s p offset search result).1
  | loadSecond (s : ViewerState) (p : Panel) (key : String)
      (result : Except Unit (List LogLine)) :
      Step s (loadSecondFromPanel s p key result).1
  | rebuildIndex (s : ViewerState) :
      Step s { s with secondIndex := buildSecondIndex s.logs }
  | detect (s : ViewerState) (p : Panel) : Step s (detectStep s p)
  | newStats (s : ViewerState) (st : Panel → Nat) :
      Step s { s with stats := st }

/-- States reachable from the constructor state by engine transitions. -/
inductive Reachable : ViewerState → Prop
  | init : Reachable initViewerState
  | step {s t : ViewerState} : Reachable s → Step s t → Reachable t

/-! ### Render engine (grouped mode) -/

/-- One node appended to the panel element by renderGroupedLog: a group
header (script.js lines 640-652, carrying the raw key in
dataset.secondKey, the formatted timestamp and the event count) or a
log-line element. -/
inductive RenderItem
  | header (secondKey : String) (timestampText : String) (eventCount : Nat)
  | line (entry : LogLine)
deriving DecidableEq

/-- Replace the first occurrence of the character T by a space, the
effect of the JavaScript expression secondKey.replace('T', ' ') (a string
pattern replaces only the first match). -/
def replaceFirstT : List Char → List Char
  | [] => []
  | c :: cs => if c = 'T' then ' ' :: cs else c :: replaceFirstT cs

/-- formatSecondKey, script.js lines 704-709. -/
def formatSecondKey (secondKey : String) : String :=
  if 'T' ∈ secondKey.data then String.mk (replaceFirstT secondKey.data)
  else secondKey

/-- Lexicographic comparison of character lists by code point, the order
JavaScript's default Array.prototype.sort applies to strings. -/
def charListLe : List Char → List Char → Bool
  | [], _ => true
  | _ :: _, [] => false
  | a :: as, b :: bs =>
    if a < b then true else if b < a then false else charListLe as bs

/-- The string order used to sort group keys (script.js line 634,
Array.from(grouped.keys()).sort()). -/
def keyLe (a b : String) : Prop := charListLe a.data b.data = true

instance : DecidableRel keyLe := fun a b => by
  unfold keyLe
  infer_instance

/-- Append a key to the key list unless already present: the effect on
the Map key order of grouped.set/get at script.js lines 627-630 (a
JavaScript Map enumerates keys in first-insertion order). -/
def insertKey (ks : List String) (k : String) : List String :=
  if k ∈ ks then ks else ks ++ [k]

/-- One iteration of the grouping loop as it affects the Map's key
order: a falsy secondKey is skipped, a truthy one is inserted. -/
def collectStep (ks : List String) (l : LogLine) : List String :=
  if l.secondKey = "" then ks else insertKey ks l.secondKey

/-- Key list of the grouping Map built at script.js lines 624-632: the
distinct truthy secondKeys of the buffer in first-occurrence order. -/
def collectKeys (buffer : List LogLine) : List String :=
  buffer.foldl collectStep []

/-- The sorted key array of script.js line 634. -/
def sortedSecondKeys (buffer : List LogLine) : List String :=
  (collectKeys buffer).insertionSort keyLe

/-- The member list of one group: grouped.get(k) collects, in buffer
order, exactly the buffered lines whose secondKey equals k. -/
def groupLines (buffer : List LogLine) (k : String) : List LogLine :=
  buffer.filter (fun l => l.secondKey == k)

/-- The nodes emitted for one group (script.js lines 637-663): a header
carrying the formatted timestamp and the event count, then the member
lines in buffer order. -/
def groupBlock (buffer : List LogLine) (k : String) : List RenderItem :=
  RenderItem.header k (formatSecondKey k) (groupLines buffer k).length ::
    (groupLines buffer k).map RenderItem.line

/-- renderGroupedLog, script.js lines 619-667: group the buffer by truthy
secondKey, sort the keys, and emit each group's block in key order. -/
def renderGroupedLog (buffer : List LogLine) : List RenderItem :=
  (sortedSecondKeys buffer).flatMap (groupBlock buffer)

/-! ### Scroll synchronization -/

/-- The scroll geometry of one panel element read by syncScrollPosition:
scrollTop, scrollHeight, clientHeight. Values are rationals standing for
JavaScript numbers. -/
structure ElemState where
  scrollTop : ℚ
  scrollHeight : ℚ
  clientHeight : ℚ

/-- Math.max on two numbers. -/
def jsMax (a b : ℚ) : ℚ := if a ≤ b then b else a

/-- Math.abs. -/
def jsAbs (a : ℚ) : ℚ := if a < 0 then -a else a

/-- The scroll percentage computed at script.js line 1090 (and 2420):
scrollTop / Math.max(1, scrollHeight - clientHeight). -/
def scrollPercentage (e : ElemState) : ℚ :=
  e.scrollTop / jsMax 1 (e.scrollHeight - e.clientHeight)

/-- syncScrollPosition, script.js lines 1082-1108 (the copy at 2412-2438
lacks the isGroupSelectionActive early return but is otherwise
identical). For each other panel the result records the scrollTop
assignment performed for it, none meaning it is left alone: a panel is
written only when its scrollHeight is positive and the distance between
the target and its current scrollTop exceeds 1 pixel (lines 1093-1104). -/
def syncScrollPosition (syncScrollOn groupSelectionActive : Bool)
    (scrolled : ElemState) (others : List ElemState) : List (Option ℚ) :=
  if syncScrollOn = false ∨ groupSelectionActive = true then
    others.map (fun _ => none)
  else
    let pct := scrollPercentage scrolled
    others.map fun o =>
      if 0 < o.scrollHeight then
        let target := pct * (o.scrollHeight - o.clientHeight)
        if 1 < jsAbs (target - o.scrollTop) then some target else none
      else none

/-- Modelled from the spec: the percentage rule claim C8 states, pct =
scrollTop / (scrollHeight - clientHeight) taken as 0 when the
denominator is nonpositive (spec section 4.5). -/
def scrollPercentageSpec (e : ElemState) : ℚ :=
  if e.scrollHeight - e.clientHeight ≤ 0 then 0
  else e.scrollTop / (e.scrollHeight - e.clientHeight)

/-- Modelled from the spec: the propagation rule claim C8 states, the
target applied to every other panel whose delta exceeds the 1-pixel
threshold. -/
def syncScrollPositionSpec (scrolled : ElemState) (others : List ElemState) :
    List (Option ℚ) :=
  let pct := scrollPercentageSpec scrolled
  others.map fun o =>
    let target := pct * (o.scrollHeight - o.clientHeight)
    if 1 < jsAbs (target - o.scrollTop) then some target else none

/-- Claim C8 as stated: with sync enabled and no group transition active,
the code's propagation coincides with the spec rule. -/
def syncScrollClaim : Prop :=
  ∀ (scrolled : ElemState) (others : List ElemState),
    syncScrollPosition true false scrolled others
      = syncScrollPositionSpec scrolled others

/-! ### Initialization -/

/-- loadStats, script.js lines 224-233: the fetch is wrapped in a
try/catch whose handler only logs, so the call never rethrows; on success
this.stats is replaced, on failure it is left as it was. -/
def loadStats (s : ViewerState) (result : Except Unit (Panel → Nat)) :
    Except Unit ViewerState :=
  Except.ok (match result with
    | Except.ok st => { s with stats := st }
    | Except.error _ => s)

/-- loadLogData viewed as a step of the initialization chain: its own
try/catch/finally (script.js lines 241-282) handles any fetch failure
inline, so the awaited call never rethrows either. -/
def loadLogDataE (s : ViewerState) (p : Panel) (offset : Nat)
    (search : String) (result : Except Unit (List LogLine)) :
    Except Unit ViewerState :=
  Except.ok (loadLogData s p offset search result).1

/-- loadAllErrors, script.js lines 465-480: detect errors from the loaded
content of each panel in turn. -/
def detectAllErrors (s : ViewerState) : ViewerState :=
  detectStep (detectStep (detectStep s Panel.bt) Panel.out) Panel.rs

/-- initializeViewer, script.js lines 167-202: loadStats, the three
initial page loads at offset 0, buildSecondIndex, loadAllErrors, inside
a try/catch; the boolean returned is true iff the catch ran, i.e. iff
the blocking message Failed to initialize viewer was shown. The three
loads are awaited via Promise.all; they touch disjoint panels and each
appends to the index and error lists, so they are sequenced here in
array order bt, out, rs. -/
def initializeViewer (statsResult : Except Unit (Panel → Nat))
    (pageResult : Panel → Except Unit (List LogLine)) :
    ViewerState × Bool :=
  let run : Except Unit ViewerState := do
    let s1 ← loadStats initViewerState statsResult
    let s2 ← loadLogDataE s1 Panel.bt 0 "" (pageResult Panel.bt)
    let s3 ← loadLogDataE s2 Panel.out 0 "" (pageResult Panel.out)
    let s4 ← loadLogDataE s3 Panel.rs 0 "" (pageResult Panel.rs)
    let s5 : ViewerState := { s4 with secondIndex := buildSecondIndex s4.logs }
    pure (detectAllErrors s5)
  match run with
  | Except.ok s => (s, false)
  | Except.error _ => (initViewerState, true)

/-- Claim C9 as stated: a failing stats fetch or a failing initial page
load makes initialization surface the blocking message. -/
def initFailureClaim : Prop :=
  ∀ (statsResult : Except Unit (Panel → Nat))
    (pageResult : Panel → Except Unit (List LogLine)),
    (statsResult = Except.error () ∨ ∃ p, pageResult p = Except.error ()) →
    (initializeViewer statsResult pageResult).2 = true

/-! ### Basic lemmas about the state helpers -/

theorem setPanel_same (logs : Panel → PanelLog) (p : Panel) (v : PanelLog) :
    setPanel logs p v p = v := by
  simp [setPanel]

theorem setPanel_other (logs : Panel → PanelLog) (p q : Panel)
    (v : PanelLog) (h : q ≠ p) : setPanel logs p v q = logs q := by
  simp [setPanel, h]

theorem setErrors_same (errs : Panel → List ErrorPos) (p : Panel)
    (v : List ErrorPos) : setErrors errs p v p = v := by
  simp [setErrors]

theorem setErrors_other (errs : Panel → List ErrorPos) (p q : Panel)
    (v : List ErrorPos) (h : q ≠ p) : setErrors errs p v q = errs q := by
  simp [setErrors, h]

theorem updateSecondIndexStep_logs (s : ViewerState) (p : Panel)
    (newLines : List LogLine) :
    (updateSecondIndexStep s p newLines).logs = s.logs := rfl

theorem updateSecondIndexStep_stats (s : ViewerState) (p : Panel)
    (newLines : List LogLine) :
    (updateSecondIndexStep s p newLines).stats = s.stats := rfl

/-- Sample panel state used by concrete witnesses: the bt panel is mid
fetch (loading = true). -/
def loadingBtState : ViewerState :=
  { initViewerState with
    logs := setPanel initViewerState.logs Panel.bt
      ({ initPanelLog with loading := true }) }

/-- C2: at most one page fetch is in flight per panel: a loadLogData call
on a panel whose loading flag is set returns at once, issuing no request
(so a counting fetch stub would only count the allowed calls) and
leaving the entire viewer state unchanged. -/
theorem loadLogData_loading_noop (s : ViewerState) (p : Panel)
    (offset : Nat) (search : String)
    (result : Except Unit (List LogLine))
    (h : (s.logs p).loading = true) :
    loadLogData s p offset search result = (s, []) := by
  simp [loadLogData, h]

theorem loadLogData_loading_noop_witness :
    (loadingBtState.logs Panel.bt).loading = true ∧
      loadLogData loadingBtState Panel.bt 0 "" (Except.ok []) =
        (loadingBtState, []) :=
  ⟨by decide,
    loadLogData_loading_noop loadingBtState Panel.bt 0 "" (Except.ok [])
      (by decide)⟩

/-- C6: a failed page fetch leaves the failing panel's buffer,
currentOffset and totalLines in the last-good condition, surfaces the
inline error in that panel, and leaves every other panel's entire state,
the second index, the error positions and the stats unchanged. -/
theorem loadLogData_failure_isolated (s : ViewerState) (p : Panel)
    (offset : Nat) (search : String)
    (h : (s.logs p).loading = false) :
    (((loadLogData s p offset search (Except.error ())).1.logs p).visibleLines
        = (s.logs p).visibleLines)
    ∧ (((loadLogData s p offset search (Except.error ())).1.logs p).currentOffset
        = (s.logs p).currentOffset)
    ∧ (((loadLogData s p offset search (Except.error ())).1.logs p).totalLines
        = (s.logs p).totalLines)
    ∧ (((loadLogData s p offset search (Except.error ())).1.logs p).inlineError
        = true)
    ∧ (∀ q, q ≠ p →
        (loadLogData s p offset search (Except.error ())).1.logs q = s.logs q)
    ∧ ((loadLogData s p offset search (Except.error ())).1.secondIndex
        = s.secondIndex)
    ∧ ((loadLogData s p offset search (Except.error ())).1.errorPositions
        = s.errorPositions)
    ∧ ((loadLogData s p offset search (Except.error ())).1.stats = s.stats) := by
  refine ⟨?_, ?_, ?_, ?_, ?_, ?_, ?_, ?_⟩ <;>
    simp [loadLogData, h, setPanel_same]
  intro q hq
  simp [loadLogData, h, setPanel_other _ _ _ _ hq]

theorem loadLogData_failure_isolated_witness :
    (initViewerState.logs Panel.bt).loading = false ∧
      ((loadLogData initViewerState Panel.bt 0 ""
          (Except.error ())).1.logs Panel.bt).inlineError = true :=
  ⟨by decide,
    (loadLogData_failure_isolated initViewerState Panel.bt 0 ""
      (by decide)).2.2.2.1⟩

/-! ### Successful page loads -/

theorem loadLogData_ok_replace (s : ViewerState) (p : Panel)
    (search : String) (lines : List LogLine)
    (h : (s.logs p).loading = false) :
    (loadLogData s p 0 search (Except.ok lines)).1.logs p =
      { visibleLines := lines, currentOffset := 0,
        totalLines := s.stats p, loading := false, inlineError := false } := by
  simp [loadLogData, h, updateSecondIndexStep, setPanel_same]

theorem loadLogData_ok_append (s : ViewerState) (p : Panel)
    (offset : Nat) (search : String) (lines : List LogLine)
    (h : (s.logs p).loading = false) (ho : offset ≠ 0) :
    (loadLogData s p offset search (Except.ok lines)).1.logs p =
      { visibleLines := (s.logs p).visibleLines ++ lines,
        currentOffset := (s.logs p).currentOffset,
        totalLines := s.stats p, loading := false, inlineError := false } := by
  simp [loadLogData, h, ho, updateSecondIndexStep, setPanel_same]

theorem runLoads_cons (s : ViewerState) (p : Panel)
    (c : Nat × List LogLine) (cs : List (Nat × List LogLine)) :
    runLoads s p (c :: cs) =
      runLoads (loadLogData s p c.1 "" (Except.ok c.2)).1 p cs := rfl

/-- A run of successful page loads at nonzero offsets only appends: the
buffer grows by the concatenation of the pages, and currentOffset and
the loading flag are untouched. -/
theorem runLoads_nonzero (p : Panel) (calls : List (Nat × List LogLine)) :
    ∀ s : ViewerState, (∀ c ∈ calls, c.1 ≠ 0) →
      (s.logs p).loading = false →
      ((runLoads s p calls).logs p).visibleLines
          = (s.logs p).visibleLines ++ (calls.map Prod.snd).flatten
      ∧ ((runLoads s p calls).logs p).currentOffset
          = (s.logs p).currentOffset
      ∧ ((runLoads s p calls).logs p).loading = false := by
  induction calls with
  | nil => intro s _ hl; simp [runLoads, hl]
  | cons c cs ih =>
    intro s hz hl
    have hc : c.1 ≠ 0 := hz c (List.mem_cons_self c cs)
    have hstep := loadLogData_ok_append s p c.1 "" c.2 hl hc
    have hrest := ih (loadLogData s p c.1 "" (Except.ok c.2)).1
      (fun d hd => hz d (List.mem_cons_of_mem c hd)) (by rw [hstep])
    rw [runLoads_cons]
    refine ⟨?_, ?_, hrest.2.2⟩
    · rw [hrest.1, hstep]
      simp [List.append_assoc]
    · rw [hrest.2.1, hstep]

/-- In a strictly increasing list of naturals, every element after the
head is nonzero. -/
theorem chain_tail_ne_zero (x : Nat) (xs : List Nat)
    (h : List.Chain' (· < ·) (x :: xs)) : ∀ y ∈ xs, y ≠ 0 := by
  induction xs generalizing x with
  | nil => intro y hy; cases hy
  | cons a t ih =>
    intro y hy
    have h1 := List.chain'_cons.1 h
    rcases List.mem_cons.1 hy with rfl | hmem
    · have hx := h1.1; omega
    · exact ih a h1.2 y hmem

/-- Claim C1 as stated: for a nonempty sequence of successful page loads
on one panel at strictly increasing offsets, the buffer afterwards is
the concatenation of the fetched pages and currentOffset is the first
call's offset. -/
def loadSequenceClaim : Prop :=
  ∀ (s : ViewerState) (p : Panel) (first : Nat × List LogLine)
    (rest : List (Nat × List LogLine)),
    (s.logs p).loading = false →
    List.Chain' (· < ·) ((first :: rest).map Prod.fst) →
    ((runLoads s p (first :: rest)).logs p).visibleLines
        = ((first :: rest).map Prod.snd).flatten
    ∧ ((runLoads s p (first :: rest)).logs p).currentOffset = first.1

/-- Sample plain line. -/
def lineN : LogLine :=
  { id := 1, lineNumber := 1, timestamp := "", secondKey := "",
    level := Level.normal, content := "boot", original := "boot" }

/-- Sample error-level line. -/
def lineE : LogLine :=
  { id := 2, lineNumber := 2, timestamp := "", secondKey := "",
    level := Level.error, content := "fail", original := "fail" }

/-- C1 counterexample: a single successful load at offset 5 from the
constructor state satisfies every hypothesis of the claim, and the
buffer does equal the fetched page, but currentOffset stays 0 (the only
assignment to it is in the offset 0 branch, script.js line 260), not 5. -/
theorem loadSequenceClaim_false : ¬ loadSequenceClaim := by
  intro h
  have h2 := (h initViewerState Panel.bt (5, [lineN]) [] (by decide)
    (List.chain'_singleton 5)).2
  exact absurd h2 (by decide)

/-- C1 amended: under the claim's hypotheses, the buffer afterwards is
the previous buffer followed by the concatenation of the fetched pages —
exactly the concatenation when the first call has offset 0, since that
call replaces the buffer — and currentOffset afterwards equals 0 when
the first offset is 0 (so it equals the first call's offset), and is
left unchanged otherwise. -/
theorem runLoads_increasing_offsets (s : ViewerState) (p : Panel)
    (first : Nat × List LogLine) (rest : List (Nat × List LogLine))
    (hl : (s.logs p).loading = false)
    (hmono : List.Chain' (· < ·) ((first :: rest).map Prod.fst)) :
    (first.1 = 0 →
      ((runLoads s p (first :: rest)).logs p).visibleLines
          = ((first :: rest).map Prod.snd).flatten
      ∧ ((runLoads s p (first :: rest)).logs p).currentOffset = first.1)
    ∧ (first.1 ≠ 0 →
      ((runLoads s p (first :: rest)).logs p).visibleLines
          = (s.logs p).visibleLines ++ ((first :: rest).map Prod.snd).flatten
      ∧ ((runLoads s p (first :: rest)).logs p).currentOffset
          = (s.logs p).currentOffset) := by
  have htail : ∀ y ∈ rest.map Prod.fst, y ≠ 0 := by
    have := chain_tail_ne_zero first.1 (rest.map Prod.fst)
    simpa using this (by simpa using hmono)
  have htailc : ∀ c ∈ rest, c.1 ≠ 0 := fun c hc =>
    htail c.1 (List.mem_map_of_mem Prod.fst hc)
  constructor
  · intro h0
    have hstep := loadLogData_ok_replace s p "" first.2 hl
    have hstep0 : (loadLogData s p first.1 "" (Except.ok first.2)).1.logs p =
        { visibleLines := first.2, currentOffset := 0,
          totalLines := s.stats p, loading := false, inlineError := false } := by
      rw [h0]; exact hstep
    have hrest := runLoads_nonzero p rest
      (loadLogData s p first.1 "" (Except.ok first.2)).1 htailc
      (by rw [hstep0])
    rw [runLoads_cons]
    refine ⟨?_, ?_⟩
    · rw [hrest.1, hstep0]; simp
    · rw [hrest.2.1, hstep0, h0]
  · intro h0
    have hall : ∀ c ∈ first :: rest, c.1 ≠ 0 := by
      intro c hc
      rcases List.mem_cons.1 hc with rfl | hmem
      · exact h0
      · exact htailc c hmem
    have h := runLoads_nonzero p (first :: rest) s hall hl
    exact ⟨h.1, h.2.1⟩

theorem runLoads_increasing_offsets_witness :
    ((runLoads initViewerState Panel.bt [(0, [lineN]), (100, [lineE])]).logs
        Panel.bt).visibleLines = [lineN, lineE]
    ∧ ((runLoads initViewerState Panel.bt
        [(0, [lineN]), (100, [lineE])]).logs Panel.bt).currentOffset = 0 := by
  have h := (runLoads_increasing_offsets initViewerState Panel.bt
    (0, [lineN]) [(100, [lineE])] (by decide)
    (by simp [List.chain'_pair])).1 rfl
  exact ⟨by simpa using h.1, by simpa using h.2⟩

/-! ### The currentOffset invariant -/

theorem loadLogData_currentOffset (s : ViewerState) (p : Panel)
    (offset : Nat) (search : String) (result : Except Unit (List LogLine))
    (ih : ∀ q, (s.logs q).currentOffset = 0) :
    ∀ q, ((loadLogData s p offset search result).1.logs q).currentOffset = 0 := by
  intro q
  by_cases hl : (s.logs p).loading
  · simp [loadLogData, hl, ih]
  · rcases result with _ | lines
    · rcases eq_or_ne q p with rfl | hq
      · simp [loadLogData, hl, setPanel_same, ih]
      · simp [loadLogData, hl, setPanel_other _ _ _ _ hq, ih]
    · rcases eq_or_ne q p with rfl | hq
      · by_cases ho : offset = 0 <;>
          simp [loadLogData, hl, ho, updateSecondIndexStep, setPanel_same, ih]
      · by_cases ho : offset = 0 <;>
          simp [loadLogData, hl, ho, updateSecondIndexStep,
            setPanel_other _ _ _ _ hq, ih]

theorem loadSecondFromPanel_currentOffset (s : ViewerState) (p : Panel)
    (key : String) (result : Except Unit (List LogLine))
    (ih : ∀ q, (s.logs q).currentOffset = 0) :
    ∀ q, ((loadSecondFromPanel s p key result).1.logs q).currentOffset = 0 := by
  intro q
  by_cases hg : (s.logs p).visibleLines.any (fun l => l.secondKey == key)
  · simp [loadSecondFromPanel, hg, ih]
  · rcases result with _ | lines
    · simp [loadSecondFromPanel, hg, ih]
    · by_cases he : lines = []
      · simp [loadSecondFromPanel, hg, he, ih]
      · rcases eq_or_ne q p with rfl | hq
        · simp [loadSecondFromPanel, hg, he, updateSecondIndexStep,
            setPanel_same, ih]
        · simp [loadSecondFromPanel, hg, he, updateSecondIndexStep,
            setPanel_other _ _ _ _ hq, ih]

/-- C10: in every reachable engine state every panel's currentOffset is
0: it starts at 0 (script.js line 4), the offset 0 branch of loadLogData
is the only assignment to it and writes 0 (line 260), and appending page
loads, targeted second loads, index rebuilds, error detection and stats
updates never touch it. -/
theorem currentOffset_always_zero (s : ViewerState) (h : Reachable s) :
    ∀ p, (s.logs p).currentOffset = 0 := by
  induction h with
  | init => intro p; simp [initViewerState, initPanelLog]
  | step _ hstep ih =>
    cases hstep with
    | loadData p offset search result =>
      exact loadLogData_currentOffset _ p offset search result ih
    | loadSecond p key result =>
      exact loadSecondFromPanel_currentOffset _ p key result ih
    | rebuildIndex => exact ih
    | detect p => exact ih
    | newStats st => exact ih

theorem currentOffset_always_zero_witness :
    Reachable initViewerState ∧
      (initViewerState.logs Panel.bt).currentOffset = 0 :=
  ⟨Reachable.init, currentOffset_always_zero initViewerState Reachable.init
    Panel.bt⟩

/-! ### Index duplication and error-offset slips -/

/-- Sample line carrying a second key. -/
def lineS : LogLine :=
  { id := 3, lineNumber := 1, timestamp := "2025-06-02T10:00:05",
    secondKey := "2025-06-02T10:00:05", level := Level.normal,
    content := "scan start", original := "scan start" }

/-- The state after an initial load of the bt panel returning lineS
followed by a replacing search reload (offset 0, search term scan)
returning the same line: the reload replaces the buffer (script.js line
259) but updateSecondIndex only ever appends (lines 287-296), so the
index entry for the key now holds the line twice. -/
def duplicateIndexState : ViewerState :=
  (loadLogData
    (loadLogData initViewerState Panel.bt 0 "" (Except.ok [lineS])).1
    Panel.bt 0 "scan" (Except.ok [lineS])).1

/-- C3 is violated by the code: duplicateIndexState is reachable, lineS
is currently in the bt buffer with a non-empty secondKey, yet it appears
twice — not exactly once — in the second index under that key and
panel. -/
theorem secondIndex_duplicate_entry :
    Reachable duplicateIndexState
    ∧ lineS ∈ (duplicateIndexState.logs Panel.bt).visibleLines
    ∧ lineS.secondKey ≠ ""
    ∧ (duplicateIndexState.secondIndex lineS.secondKey Panel.bt).count lineS
        = 2 := by
  refine ⟨?_, by decide, by decide, by decide⟩
  exact Reachable.step
    (Reachable.step Reachable.init
      (Step.loadData initViewerState Panel.bt 0 "" (Except.ok [lineS])))
    (Step.loadData _ Panel.bt 0 "scan" (Except.ok [lineS]))

/-- The state after an initial load of one normal line into bt followed
by an appending load (offset 1) whose page holds one error line. -/
def pageLocalOffsetState : ViewerState :=
  (loadLogData
    (loadLogData initViewerState Panel.bt 0 "" (Except.ok [lineN])).1
    Panel.bt 1 "" (Except.ok [lineE])).1

/-- C4 is violated by the code: after the append, the error line sits at
in-buffer index 1 with currentOffset 0, so the claim requires the
recorded offset to be 1; updateErrorPositionsFromNewContent (script.js
line 523) instead records currentOffset plus the index within the new
page, which is 0. -/
theorem errorPositions_page_local_offset :
    Reachable pageLocalOffsetState
    ∧ (pageLocalOffsetState.logs Panel.bt).visibleLines = [lineN, lineE]
    ∧ pageLocalOffsetState.errorPositions Panel.bt
        = [{ lineNumber := 2, level := Level.error, offset := 0 }]
    ∧ pageLocalOffsetState.errorPositions Panel.bt
        ≠ [{ lineNumber := 2, level := Level.error,
             offset := (pageLocalOffsetState.logs Panel.bt).currentOffset
               + 1 }] := by
  refine ⟨?_, by decide, by decide, by decide⟩
  exact Reachable.step
    (Reachable.step Reachable.init
      (Step.loadData initViewerState Panel.bt 0 "" (Except.ok [lineN])))
    (Step.loadData _ Panel.bt 1 "" (Except.ok [lineE]))

/-! ### Targeted second loads -/

/-- C5: if some already-loaded line of the panel carries the requested
second key, loadSecondFromPanel issues no request and changes no state
(returning undefined); otherwise it issues exactly one targeted request
with limit 50 and, when that fetch succeeds, appends the payload to the
buffer (leaving currentOffset and totalLines alone), folds it into the
second index and the error positions, and returns the boolean saying
whether new data arrived. -/
theorem loadSecondFromPanel_contract (s : ViewerState) (p : Panel)
    (key : String) (lines : List LogLine) :
    ((∃ l ∈ (s.logs p).visibleLines, l.secondKey = key) →
      loadSecondFromPanel s p key (Except.ok lines) = (s, [], none))
    ∧ ((∀ l ∈ (s.logs p).visibleLines, l.secondKey ≠ key) →
      (loadSecondFromPanel s p key (Except.ok lines)).2.1
          = [secondRequest p key]
      ∧ (secondRequest p key).limit = 50
      ∧ ((loadSecondFromPanel s p key (Except.ok lines)).1.logs p).visibleLines
          = (s.logs p).visibleLines ++ lines
      ∧ ((loadSecondFromPanel s p key (Except.ok lines)).1.logs p).currentOffset
          = (s.logs p).currentOffset
      ∧ ((loadSecondFromPanel s p key (Except.ok lines)).1.logs p).totalLines
          = (s.logs p).totalLines
      ∧ (loadSecondFromPanel s p key (Except.ok lines)).1.secondIndex
          = indexNewLines s.secondIndex p lines
      ∧ (loadSecondFromPanel s p key (Except.ok lines)).1.errorPositions p
          = updateErrorPositionsFromNewContent (s.errorPositions p)
              ((s.logs p).currentOffset) lines
      ∧ (loadSecondFromPanel s p key (Except.ok lines)).2.2
          = some (!lines.isEmpty)) := by
  constructor
  · rintro ⟨l, hl, hkey⟩
    have hg : (s.logs p).visibleLines.any (fun l => l.secondKey == key)
        = true :=
      List.any_eq_true.2 ⟨l, hl, by simp [hkey]⟩
    simp [loadSecondFromPanel, hg]
  · intro hnone
    have hg : (s.logs p).visibleLines.any (fun l => l.secondKey == key)
        = false := by
      rw [List.any_eq_false]
      intro l hl
      simp [hnone l hl]
    by_cases he : lines = []
    · subst he
      refine ⟨?_, rfl, ?_, ?_, ?_, ?_, ?_, ?_⟩ <;>
        simp [loadSecondFromPanel, hg, indexNewLines,
          updateErrorPositionsFromNewContent, newErrorEntries]
    · refine ⟨?_, rfl, ?_, ?_, ?_, ?_, ?_, ?_⟩ <;>
        simp [loadSecondFromPanel, hg, he, updateSecondIndexStep,
          setPanel_same, setErrors_same]

/-- The state after an initial load putting lineS into the bt buffer. -/
def secondLoadedState : ViewerState :=
  (loadLogData initViewerState Panel.bt 0 "" (Except.ok [lineS])).1

theorem loadSecondFromPanel_contract_witness :
    (∃ l ∈ (secondLoadedState.logs Panel.bt).visibleLines,
        l.secondKey = "2025-06-02T10:00:05")
    ∧ loadSecondFromPanel secondLoadedState Panel.bt "2025-06-02T10:00:05"
        (Except.ok []) = (secondLoadedState, [], none) :=
  ⟨by decide,
    (loadSecondFromPanel_contract secondLoadedState Panel.bt
      "2025-06-02T10:00:05" []).1 (by decide)⟩

/-! ### Properties of the key order -/

theorem charListLe_trans : ∀ x y z : List Char,
    charListLe x y = true → charListLe y z = true →
      charListLe x z = true := by
  intro x
  induction x with
  | nil => intro y z _ _; rfl
  | cons a as ih =>
    intro y z hxy hyz
    cases y with
    | nil => simp [charListLe] at hxy
    | cons b bs =>
      cases z with
      | nil => simp [charListLe] at hyz
      | cons c cs =>
        simp only [charListLe] at hxy hyz ⊢
        rcases lt_trichotomy a b with hab | hab | hab
        · rcases lt_trichotomy b c with hbc | hbc | hbc
          · simp [lt_trans hab hbc]
          · subst hbc; simp [hab]
          · rw [if_neg (not_lt.2 hbc.le), if_pos hbc] at hyz
            exact absurd hyz (by simp)
        · subst hab
          rcases lt_trichotomy a c with hbc | hbc | hbc
          · simp [hbc]
          · subst hbc
            rw [if_neg (lt_irrefl a), if_neg (lt_irrefl a)] at hxy hyz ⊢
            exact ih bs cs hxy hyz
          · rw [if_neg (not_lt.2 hbc.le), if_pos hbc] at hyz
            exact absurd hyz (by simp)
        · rw [if_neg (not_lt.2 hab.le), if_pos hab] at hxy
          exact absurd hxy (by simp)

theorem charListLe_antisymm : ∀ x y : List Char,
    charListLe x y = true → charListLe y x = true → x = y := by
  intro x
  induction x with
  | nil =>
    intro y _ hyx
    cases y with
    | nil => rfl
    | cons b bs => simp [charListLe] at hyx
  | cons a as ih =>
    intro y hxy hyx
    cases y with
    | nil => simp [charListLe] at hxy
    | cons b bs =>
      simp only [charListLe] at hxy hyx
      rcases lt_trichotomy a b with hab | hab | hab
      · rw [if_neg (not_lt.2 hab.le), if_pos hab] at hyx
        exact absurd hyx (by simp)
      · subst hab
        rw [if_neg (lt_irrefl a), if_neg (lt_irrefl a)] at hxy hyx
        rw [ih bs hxy hyx]
      · rw [if_neg (not_lt.2 hab.le), if_pos hab] at hxy
        exact absurd hxy (by simp)

theorem charListLe_total : ∀ x y : List Char,
    charListLe x y = true ∨ charListLe y x = true := by
  intro x
  induction x with
  | nil => intro y; left; rfl
  | cons a as ih =>
    intro y
    cases y with
    | nil => right; rfl
    | cons b bs =>
      rcases lt_trichotomy a b with hab | hab | hab
      · left; simp [charListLe, hab]
      · subst hab
        rcases ih bs with h | h
        · left; simp [charListLe, h]
        · right; simp [charListLe, h]
      · right; simp [charListLe, hab]

instance : IsTotal String keyLe :=
  ⟨fun a b => charListLe_total a.data b.data⟩

instance : IsTrans String keyLe :=
  ⟨fun a b c => charListLe_trans a.data b.data c.data⟩

instance : IsAntisymm String keyLe := by
  constructor
  intro a b h1 h2
  have h := charListLe_antisymm a.data b.data h1 h2
  cases a
  cases b
  exact congrArg String.mk h

/-! ### Properties of the grouping key list -/

theorem mem_insertKey {ks : List String} {k a : String} :
    a ∈ insertKey ks k ↔ a ∈ ks ∨ a = k := by
  by_cases h : k ∈ ks
  · simp only [insertKey, if_pos h]
    constructor
    · exact Or.inl
    · rintro (h2 | rfl)
      · exact h2
      · exact h
  · simp [insertKey, h]

theorem nodup_insertKey {ks : List String} (k : String) (h : ks.Nodup) :
    (insertKey ks k).Nodup := by
  by_cases hk : k ∈ ks
  · simpa [insertKey, hk]
  · simp [insertKey, hk, List.nodup_append, h]

theorem mem_foldl_collectStep (buffer : List LogLine) :
    ∀ (acc : List String) (a : String),
      a ∈ buffer.foldl collectStep acc ↔
        a ∈ acc ∨ (a ≠ "" ∧ ∃ l ∈ buffer, l.secondKey = a) := by
  induction buffer with
  | nil => intro acc a; simp
  | cons l t ih =>
    intro acc a
    rw [List.foldl_cons]
    by_cases hk : l.secondKey = ""
    · rw [show collectStep acc l = acc from by simp [collectStep, hk], ih]
      constructor
      · rintro (h | ⟨hne, l', hl', hkey⟩)
        · exact Or.inl h
        · exact Or.inr ⟨hne, l', List.mem_cons_of_mem _ hl', hkey⟩
      · rintro (h | ⟨hne, l', hl', hkey⟩)
        · exact Or.inl h
        · rcases List.mem_cons.1 hl' with rfl | hm
          · exact absurd (hk ▸ hkey).symm hne
          · exact Or.inr ⟨hne, l', hm, hkey⟩
    · rw [show collectStep acc l = insertKey acc l.secondKey from
        by simp [collectStep, hk], ih]
      rw [mem_insertKey]
      constructor
      · rintro ((h | rfl) | ⟨hne, l', hl', hkey⟩)
        · exact Or.inl h
        · exact Or.inr ⟨hk, l, List.mem_cons_self l t, rfl⟩
        · exact Or.inr ⟨hne, l', List.mem_cons_of_mem _ hl', hkey⟩
      · rintro (h | ⟨hne, l', hl', hkey⟩)
        · exact Or.inl (Or.inl h)
        · rcases List.mem_cons.1 hl' with rfl | hm
          · exact Or.inl (Or.inr hkey.symm)
          · exact Or.inr ⟨hne, l', hm, hkey⟩

theorem mem_collectKeys {buffer : List LogLine} {a : String} :
    a ∈ collectKeys buffer ↔ a ≠ "" ∧ ∃ l ∈ buffer, l.secondKey = a := by
  rw [collectKeys, mem_foldl_collectStep]
  simp

theorem nodup_foldl_collectStep (buffer : List LogLine) :
    ∀ acc : List String, acc.Nodup →
      (buffer.foldl collectStep acc).Nodup := by
  induction buffer with
  | nil => intro acc h; simpa
  | cons l t ih =>
    intro acc h
    rw [List.foldl_cons]
    refine ih _ ?_
    by_cases hk : l.secondKey = ""
    · simpa [collectStep, hk]
    · simp only [collectStep, if_neg hk]
      exact nodup_insertKey _ h

theorem nodup_collectKeys (buffer : List LogLine) :
    (collectKeys buffer).Nodup :=
  nodup_foldl_collectStep buffer [] List.nodup_nil

theorem nodup_sortedSecondKeys (buffer : List LogLine) :
    (sortedSecondKeys buffer).Nodup :=
  ((List.perm_insertionSort keyLe (collectKeys buffer)).symm).nodup
    (nodup_collectKeys buffer)

theorem mem_sortedSecondKeys {buffer : List LogLine} {a : String} :
    a ∈ sortedSecondKeys buffer ↔ a ≠ "" ∧ ∃ l ∈ buffer, l.secondKey = a := by
  rw [sortedSecondKeys, List.mem_insertionSort, mem_collectKeys]

theorem sortedSecondKeys_sorted (buffer : List LogLine) :
    (sortedSecondKeys buffer).Pairwise keyLe :=
  List.sorted_insertionSort keyLe (collectKeys buffer)

theorem sortedSecondKeys_perm {b b' : List LogLine} (h : b.Perm b') :
    sortedSecondKeys b = sortedSecondKeys b' := by
  have hp : (collectKeys b).Perm (collectKeys b') := by
    refine (List.perm_ext_iff_of_nodup (nodup_collectKeys b)
      (nodup_collectKeys b')).2 ?_
    intro a
    rw [mem_collectKeys, mem_collectKeys]
    constructor
    · rintro ⟨hne, l, hl, hkey⟩
      exact ⟨hne, l, h.mem_iff.1 hl, hkey⟩
    · rintro ⟨hne, l, hl, hkey⟩
      exact ⟨hne, l, h.mem_iff.2 hl, hkey⟩
  have hperm : (sortedSecondKeys b).Perm (sortedSecondKeys b') :=
    ((List.perm_insertionSort keyLe (collectKeys b)).trans hp).trans
      (List.perm_insertionSort keyLe (collectKeys b')).symm
  exact List.eq_of_perm_of_sorted hperm
    (sortedSecondKeys_sorted b) (sortedSecondKeys_sorted b')

theorem line_mem_renderGroupedLog {buffer : List LogLine} {l : LogLine} :
    RenderItem.line l ∈ renderGroupedLog buffer ↔
      l ∈ buffer ∧ l.secondKey ≠ "" := by
  rw [renderGroupedLog]
  rw [List.mem_flatMap]
  constructor
  · rintro ⟨k, hk, hblock⟩
    simp only [groupBlock, List.mem_cons, groupLines] at hblock
    rcases hblock with h | h
    · cases h
    · rcases List.mem_map.1 h with ⟨l', hl', heq⟩
      cases heq
      have hf := List.mem_filter.1 hl'
      have hkey : l.secondKey = k := by simpa using hf.2
      have hne : k ≠ "" := (mem_sortedSecondKeys.1 hk).1
      exact ⟨hf.1, hkey ▸ hne⟩
  · rintro ⟨hl, hne⟩
    refine ⟨l.secondKey, mem_sortedSecondKeys.2 ⟨hne, l, hl, rfl⟩, ?_⟩
    simp only [groupBlock, List.mem_cons, groupLines]
    refine Or.inr (List.mem_map.2 ⟨l, List.mem_filter.2 ⟨hl, by simp⟩, rfl⟩)

/-- Sample lines for the grouped-rendering scenario of the spec: buffer
keys in input order t2, t1, t1, t3. -/
def lineT2 : LogLine :=
  { id := 11, lineNumber := 1, timestamp := "t2", secondKey := "t2",
    level := Level.normal, content := "b", original := "b" }

def lineT1a : LogLine :=
  { id := 12, lineNumber := 2, timestamp := "t1", secondKey := "t1",
    level := Level.normal, content := "c", original := "c" }

def lineT1b : LogLine :=
  { id := 13, lineNumber := 3, timestamp := "t1", secondKey := "t1",
    level := Level.normal, content := "d", original := "d" }

def lineT3 : LogLine :=
  { id := 14, lineNumber := 4, timestamp := "t3", secondKey := "t3",
    level := Level.normal, content := "e", original := "e" }

/-- C7: grouped rendering partitions the buffer by secondKey and drops
every line lacking one; the emitted group keys are exactly the distinct
truthy secondKeys of the buffer, in strictly ascending lexicographic
order independent of the buffer order; each group is one header carrying
the formatted timestamp and the member count followed by the member
lines in buffer order; and on the buffer with keys t2, t1, t1, t3 the
output is t1 (2 events), t2 (1 event), t3 (1 event). -/
theorem renderGroupedLog_correct :
    (∀ buffer : List LogLine,
      renderGroupedLog buffer
        = (sortedSecondKeys buffer).flatMap (groupBlock buffer))
    ∧ (∀ buffer : List LogLine,
      (sortedSecondKeys buffer).Pairwise fun a b => keyLe a b ∧ a ≠ b)
    ∧ (∀ (buffer : List LogLine) (k : String),
      k ∈ sortedSecondKeys buffer ↔ k ≠ "" ∧ ∃ l ∈ buffer, l.secondKey = k)
    ∧ (∀ b b' : List LogLine, b.Perm b' →
      sortedSecondKeys b = sortedSecondKeys b')
    ∧ (∀ (buffer : List LogLine) (k : String),
      groupBlock buffer k
        = RenderItem.header k (formatSecondKey k) (groupLines buffer k).length
            :: (groupLines buffer k).map RenderItem.line)
    ∧ (∀ (buffer : List LogLine) (l : LogLine),
      RenderItem.line l ∈ renderGroupedLog buffer ↔
        l ∈ buffer ∧ l.secondKey ≠ "")
    ∧ renderGroupedLog [lineT2, lineT1a, lineT1b, lineT3]
        = [RenderItem.header "t1" "t1" 2, RenderItem.line lineT1a,
           RenderItem.line lineT1b,
           RenderItem.header "t2" "t2" 1, RenderItem.line lineT2,
           RenderItem.header "t3" "t3" 1, RenderItem.line lineT3] := by
  refine ⟨fun _ => rfl, ?_, ?_, ?_, fun _ _ => rfl, ?_, ?_⟩
  · intro buffer
    exact (sortedSecondKeys_sorted buffer).and
      ((nodup_sortedSecondKeys buffer).imp fun h => h)
  · intro buffer k
    exact mem_sortedSecondKeys
  · intro b b' h
    exact sortedSecondKeys_perm h
  · intro buffer l
    exact line_mem_renderGroupedLog
  · decide

theorem renderGroupedLog_correct_witness :
    [lineT2, lineT1a].Perm [lineT1a, lineT2]
    ∧ sortedSecondKeys [lineT2, lineT1a] = sortedSecondKeys [lineT1a, lineT2] :=
  ⟨by decide, renderGroupedLog_correct.2.2.2.1 _ _ (by decide)⟩

/-! ### Scroll synchronization claims -/

/-- C8 counterexample: at scrollTop 5 with scrollHeight = clientHeight =
10 the denominator is 0, so the claim takes the percentage as 0 and
leaves the other panel (scrollHeight 20, clientHeight 10, scrollTop 0)
alone; the code instead divides by Math.max(1, 0) = 1, obtains
percentage 5, target 50, delta 50 > 1, and writes the other panel. -/
theorem syncScrollClaim_false : ¬ syncScrollClaim := by
  intro h
  have h2 := h ⟨5, 10, 10⟩ [⟨0, 20, 10⟩]
  norm_num [syncScrollPosition, syncScrollPositionSpec, scrollPercentage,
    scrollPercentageSpec, jsMax, jsAbs] at h2
  exact Option.noConfusion h2

/-- C8 amended: the computed percentage is scrollTop divided by
Math.max(1, scrollHeight - clientHeight) — equal to the claim's
scrollTop / (scrollHeight - clientHeight) whenever that denominator is
at least 1, but equal to scrollTop itself (not 0) when the denominator
is nonpositive — and, with sync enabled and no group transition active,
the target percentage-position is written to exactly those other panels
with positive scrollHeight whose distance from the target exceeds the
1-pixel threshold; with sync disabled or a group transition active no
panel is written. -/
theorem syncScrollPosition_amended :
    (∀ e : ElemState, 1 ≤ e.scrollHeight - e.clientHeight →
      scrollPercentage e = e.scrollTop / (e.scrollHeight - e.clientHeight))
    ∧ (∀ e : ElemState, e.scrollHeight - e.clientHeight ≤ 0 →
      scrollPercentage e = e.scrollTop)
    ∧ (∀ (scrolled : ElemState) (others : List ElemState),
      syncScrollPosition true false scrolled others
        = others.map fun o =>
            if 0 < o.scrollHeight
                ∧ 1 < jsAbs (scrollPercentage scrolled
                    * (o.scrollHeight - o.clientHeight) - o.scrollTop)
            then some (scrollPercentage scrolled
                * (o.scrollHeight - o.clientHeight))
            else none)
    ∧ (∀ (g : Bool) (scrolled : ElemState) (others : List ElemState),
      syncScrollPosition false g scrolled others = others.map fun _ => none)
    ∧ (∀ (b : Bool) (scrolled : ElemState) (others : List ElemState),
      syncScrollPosition b true scrolled others = others.map fun _ => none) := by
  refine ⟨?_, ?_, ?_, ?_, ?_⟩
  · intro e h
    have hm : jsMax 1 (e.scrollHeight - e.clientHeight)
        = e.scrollHeight - e.clientHeight := by
      simp [jsMax, h]
    rw [scrollPercentage, hm]
  · intro e h
    have hm : jsMax 1 (e.scrollHeight - e.clientHeight) = 1 := by
      have : ¬ (1 : ℚ) ≤ e.scrollHeight - e.clientHeight := by linarith
      simp [jsMax, this]
    rw [scrollPercentage, hm, div_one]
  · intro scrolled others
    simp only [syncScrollPosition, Bool.true_eq_false, Bool.false_eq_true,
      or_self, if_false]
    apply List.map_congr_left
    intro o _
    by_cases h1 : 0 < o.scrollHeight
    · by_cases h2 : 1 < jsAbs (scrollPercentage scrolled
          * (o.scrollHeight - o.clientHeight) - o.scrollTop)
      · simp [h1, h2]
      · simp [h1, h2]
    · simp [h1]
  · intro g scrolled others
    simp [syncScrollPosition]
  · intro b scrolled others
    simp [syncScrollPosition]

theorem syncScrollPosition_amended_witness :
    (1 : ℚ) ≤ (30 : ℚ) - 10
    ∧ scrollPercentage ⟨5, 30, 10⟩ = 5 / ((30 : ℚ) - 10) :=
  ⟨by norm_num, syncScrollPosition_amended.1 ⟨5, 30, 10⟩ (by norm_num)⟩

/-! ### Initialization claims -/

/-- C9 counterexample: a failing stats fetch with all three page loads
succeeding runs initialization to completion without the blocking
message — loadStats swallows its own error (script.js lines 230-232),
so the catch of initializeViewer never sees it. -/
theorem initFailureClaim_false : ¬ initFailureClaim := by
  intro h
  have h2 := h (Except.error ()) (fun _ => Except.ok []) (Or.inl rfl)
  exact absurd h2 (by decide)

/-- The stats map after loadStats: the fetched value on success, the
constructor's all-zero map on failure. -/
def statsOf : Except Unit (Panel → Nat) → Panel → Nat
  | Except.ok st => st
  | Except.error _ => fun _ => 0

theorem loadLogData_logs_other (s : ViewerState) (p : Panel) (offset : Nat)
    (search : String) (result : Except Unit (List LogLine)) (q : Panel)
    (hq : q ≠ p) :
    (loadLogData s p offset search result).1.logs q = s.logs q := by
  by_cases hl : (s.logs p).loading
  · simp [loadLogData, hl]
  · rcases result with _ | lines
    · simp [loadLogData, hl, setPanel_other _ _ _ _ hq]
    · by_cases ho : offset = 0 <;>
        simp [loadLogData, hl, ho, updateSecondIndexStep,
          setPanel_other _ _ _ _ hq]

theorem loadLogData_fail_logs_self (s : ViewerState) (p : Panel)
    (offset : Nat) (search : String) (h : (s.logs p).loading = false) :
    (loadLogData s p offset search (Except.error ())).1.logs p
      = { s.logs p with inlineError := true } := by
  simp [loadLogData, h, setPanel_same]

theorem initializeViewer_logs (statsResult : Except Unit (Panel → Nat))
    (pageResult : Panel → Except Unit (List LogLine)) :
    (initializeViewer statsResult pageResult).1.logs =
      (loadLogData (loadLogData (loadLogData
          { initViewerState with stats := statsOf statsResult }
          Panel.bt 0 "" (pageResult Panel.bt)).1
          Panel.out 0 "" (pageResult Panel.out)).1
          Panel.rs 0 "" (pageResult Panel.rs)).1.logs := by
  cases statsResult <;> rfl

/-- C9 amended: neither a failing stats fetch nor a failing initial page
load reaches the catch of initializeViewer — loadStats and loadLogData
handle their own fetch failures — so the blocking reload message is
never shown for them and initialization always runs to completion; a
panel whose initial page load failed is left empty showing its inline
(panel-local, not blocking) error. -/
theorem initializeViewer_no_blocking
    (statsResult : Except Unit (Panel → Nat))
    (pageResult : Panel → Except Unit (List LogLine)) :
    (initializeViewer statsResult pageResult).2 = false
    ∧ ∀ p, pageResult p = Except.error () →
        ((initializeViewer statsResult pageResult).1.logs p).inlineError = true
        ∧ ((initializeViewer statsResult pageResult).1.logs p).visibleLines
            = [] := by
  constructor
  · cases statsResult <;> rfl
  · intro p hp
    have hlogs := initializeViewer_logs statsResult pageResult
    cases p with
    | bt =>
      have e3 : (initializeViewer statsResult pageResult).1.logs Panel.bt
          = (loadLogData { initViewerState with stats := statsOf statsResult }
              Panel.bt 0 "" (pageResult Panel.bt)).1.logs Panel.bt := by
        rw [hlogs,
          loadLogData_logs_other _ Panel.rs _ _ _ Panel.bt (by decide),
          loadLogData_logs_other _ Panel.out _ _ _ Panel.bt (by decide)]
      rw [e3, hp, loadLogData_fail_logs_self _ Panel.bt 0 "" rfl]
      exact ⟨rfl, rfl⟩
    | out =>
      have hprev : (loadLogData
            { initViewerState with stats := statsOf statsResult }
            Panel.bt 0 "" (pageResult Panel.bt)).1.logs Panel.out
          = initPanelLog :=
        loadLogData_logs_other _ Panel.bt _ _ _ Panel.out (by decide)
      have e3 : (initializeViewer statsResult pageResult).1.logs Panel.out
          = (loadLogData (loadLogData
              { initViewerState with stats := statsOf statsResult }
              Panel.bt 0 "" (pageResult Panel.bt)).1
              Panel.out 0 "" (pageResult Panel.out)).1.logs Panel.out := by
        rw [hlogs,
          loadLogData_logs_other _ Panel.rs _ _ _ Panel.out (by decide)]
      rw [e3, hp, loadLogData_fail_logs_self _ Panel.out 0 ""
        (by rw [hprev]; rfl), hprev]
      exact ⟨rfl, rfl⟩
    | rs =>
      have hprev : (loadLogData (loadLogData
            { initViewerState with stats := statsOf statsResult }
            Panel.bt 0 "" (pageResult Panel.bt)).1
            Panel.out 0 "" (pageResult Panel.out)).1.logs Panel.rs
          = initPanelLog := by
        rw [loadLogData_logs_other _ Panel.out _ _ _ Panel.rs (by decide),
          loadLogData_logs_other _ Panel.bt _ _ _ Panel.rs (by decide)]
        rfl
      rw [hlogs, hp, loadLogData_fail_logs_self _ Panel.rs 0 ""
        (by rw [hprev]; rfl), hprev]
      exact ⟨rfl, rfl⟩

theorem initializeViewer_no_blocking_witness :
    (Except.error () : Except Unit (List LogLine)) = Except.error ()
    ∧ ((initializeViewer (Except.error ())
        (fun _ => Except.error ())).1.logs Panel.bt).inlineError = true :=
  ⟨rfl, ((initializeViewer_no_blocking (Except.error ())
      (fun _ => Except.error ())).2 Panel.bt rfl).1⟩

end CTViewer
